import Mathlib

/-!
Verification of the `Schema` class of SolrClient2 (`src/SolrClient2/schema.py`)
against its natural-language specification.

The embedding is shallow: JSON values are an inductive `JVal`; the injected
transport (`self.solr.transport.send_request`) is a deterministic oracle from
requests to parsed responses; each method becomes a Lean function threading an
explicit state that records the requests issued and the log lines emitted, and
returning `Except PyError` for the Python exceptions the method body itself can
raise (`ValueError`, `KeyError`, `TypeError`).  Transport-level failures are out
of scope, as in the spec (errors of the collaborator propagate unchanged).
-/

set_option autoImplicit false

namespace SolrClient2

/-- A parsed JSON value, as Python sees it after `json` decoding: strings,
booleans, integers, lists and dicts (dicts as association lists). -/
inductive JVal where
  | str (s : String)
  | bool (b : Bool)
  | num (n : Int)
  | arr (xs : List JVal)
  | obj (kvs : List (String × JVal))

/-- First binding of a key in an association list (a Python dict has at most
one binding per key, so on faithful inputs first = only). -/
def lookupKey : List (String × JVal) → String → Option JVal
  | [], _ => none
  | (k, v) :: rest, key => if k = key then some v else lookupKey rest key

/-- The Python exceptions the method bodies can raise. -/
inductive PyError where
  | valueError (msg : String)
  | keyError (key : String)
  | typeError (msg : String)

/-- Python subscripting `v[key]` with a string key: dict lookup, `KeyError`
when the key is absent, `TypeError` when `v` is not a dict. -/
def getItem : JVal → String → Except PyError JVal
  | .obj kvs, key =>
    match lookupKey kvs key with
    | some v => .ok v
    | none => .error (.keyError key)
  | _, key => .error (.typeError ("value not subscriptable by key " ++ key))

/-- Python subscripting on a dict given directly as an association list. -/
def dictGet (d : List (String × JVal)) (key : String) : Except PyError JVal :=
  match lookupKey d key with
  | some v => .ok v
  | none => .error (.keyError key)

mutual
/-- Python `==` on decoded JSON values: structural on scalars and lists,
key-set/value equality on dicts (dict comparison ignores insertion order).
The numeric `True == 1` coercion is not modelled; no method compares a bool
with a number. -/
def pyEq : JVal → JVal → Bool
  | .str a, .str b => a = b
  | .bool a, .bool b => a = b
  | .num a, .num b => a = b
  | .arr a, .arr b => pyEqList a b
  | .obj a, .obj b => pyEqSub a b && pyEqSub b a
  | _, _ => false
termination_by a b => sizeOf a + sizeOf b

/-- Pointwise `==` on lists. -/
def pyEqList : List JVal → List JVal → Bool
  | [], [] => true
  | x :: xs, y :: ys => pyEq x y && pyEqList xs ys
  | _, _ => false
termination_by xs ys => sizeOf xs + sizeOf ys

/-- Every binding of the first dict is matched by an equal binding of the
second. -/
def pyEqSub : List (String × JVal) → List (String × JVal) → Bool
  | [], _ => true
  | (k, v) :: rest, b => pyEqVal b k v && pyEqSub rest b
termination_by a b => sizeOf a + sizeOf b

/-- The dict `b` binds key `k` to a value `==` to `v`. -/
def pyEqVal : List (String × JVal) → String → JVal → Bool
  | [], _, _ => false
  | (k2, w) :: rest, k, v => if k2 = k then pyEq v w else pyEqVal rest k v
termination_by b _ v => sizeOf b + sizeOf v
end

/-- Python `x in xs` on a list: membership under `==`. -/
def pyMem (x : JVal) : List JVal → Bool
  | [] => false
  | y :: ys => pyEq x y || pyMem x ys

/-- Python iteration `for v in x`: lists yield elements, dicts yield keys,
strings yield characters, anything else raises `TypeError`. -/
def pyIter : JVal → Except PyError (List JVal)
  | .arr xs => .ok xs
  | .obj kvs => .ok (kvs.map (fun kv => JVal.str kv.fst))
  | .str s => .ok (s.toList.map (fun c => JVal.str (String.mk [c])))
  | _ => .error (.typeError "value is not iterable")

/-- Python `x in c` for a general container `c` (used by `delete_copy_field`
on the fetched copy-field list): lists test `==` membership, dicts test key
membership and raise `TypeError` on an unhashable probe (a dict probe is
unhashable), strings test substring and require a string probe. -/
def pyContains (container probe : JVal) : Except PyError Bool :=
  match container with
  | .arr ys => .ok (pyMem probe ys)
  | .obj kvs =>
    match probe with
    | .str s => .ok (kvs.any (fun kv => kv.fst = s))
    | _ => .error (.typeError "unhashable type")
  | .str s =>
    match probe with
    | .str sub => .ok (sub.isEmpty || (s.splitOn sub).length > 1)
    | _ => .error (.typeError "in <string> requires string as left operand")
  | _ => .error (.typeError "argument is not a container")

mutual
/-- Python `str()` of a decoded JSON value, used only to build diagnostic
text (`"...".format(x)` and `str(copy_dict)`).  Container rendering elides
Python's quoting of inner strings; no theorem depends on container text. -/
def pyStr : JVal → String
  | .str s => s
  | .bool true => "True"
  | .bool false => "False"
  | .num n => toString n
  | .arr xs => "[" ++ pyStrList xs ++ "]"
  | .obj kvs => "\x7b" ++ pyStrObj kvs ++ "\x7d"
termination_by v => sizeOf v

/-- Comma-joined rendering of list elements. -/
def pyStrList : List JVal → String
  | [] => ""
  | [x] => pyStr x
  | x :: rest => pyStr x ++ ", " ++ pyStrList rest
termination_by xs => sizeOf xs

/-- Comma-joined rendering of dict bindings. -/
def pyStrObj : List (String × JVal) → String
  | [] => ""
  | [(k, v)] => k ++ ": " ++ pyStr v
  | (k, v) :: rest => k ++ ": " ++ pyStr v ++ ", " ++ pyStrObj rest
termination_by kvs => sizeOf kvs
end

/-- One call to `send_request`: HTTP method, endpoint, collection, and the
request body when present.  `json.dumps` is injective on `JVal`, so the body
is kept as the value being serialized. -/
structure Request where
  method : String
  endpoint : String
  collection : String
  data : Option JVal

/-- Observable state of a run: the requests issued so far (in order) and the
log lines emitted. -/
structure St where
  trace : List Request
  logs : List String

/-- The injected transport collaborator: a deterministic oracle giving, for
each request, the parsed response body and the connection info of
`send_request(...) -> (response, connection_info)`. -/
structure Transport where
  respond : Request → JVal × JVal

/-- The `Schema` object: its transport reference and the `devel` debug flag
copied from the parent client in `__init__`. -/
structure Schema where
  transport : Transport
  devel : Bool

/-- `self.schema_endpoint`, set in `__init__`. -/
def schema_endpoint : String := "schema/"

/-- `self.solr.transport.send_request(...)`: records the request and returns
the transport's `(response, connection_info)` pair. -/
def sendRequest (t : Transport) (method endpoint collection : String)
    (data : Option JVal) (st : St) : (JVal × JVal) × St :=
  let req : Request := ⟨method, endpoint, collection, data⟩
  (t.respond req, { st with trace := st.trace ++ [req] })

/-- `get_schema_fields`: GET `schema/fields`, return the parsed response
`res` (the whole mapping, not an unwrapped list). -/
def get_schema_fields (s : Schema) (collection : String) (st : St) : JVal × St :=
  let r := sendRequest s.transport "GET" "schema/fields" collection none st
  (r.1.1, r.2)

/-- `get_schema_copyfields`: GET `schema/copyfields` and return
`res['copyFields']` (raises `KeyError`/`TypeError` when absent). -/
def get_schema_copyfields (s : Schema) (collection : String) (st : St) :
    Except PyError JVal × St :=
  let r := sendRequest s.transport "GET" "schema/copyfields" collection none st
  (getItem r.1.1 "copyFields", r.2)

/-- `get_schema_field_types`: GET `schema/fieldtypes`, return the parsed
response `res` (the whole mapping). -/
def get_schema_field_types (s : Schema) (collection : String) (st : St) : JVal × St :=
  let r := sendRequest s.transport "GET" "schema/fieldtypes" collection none st
  (r.1.1, r.2)

/-- The list comprehension `[field['name'] for field in fields]`: evaluated
in full before the membership test, so any record without a `'name'` raises. -/
def namesOf : List JVal → Except PyError (List JVal)
  | [] => .ok []
  | f :: rest =>
    match getItem f "name" with
    | .error e => .error e
    | .ok v =>
      match namesOf rest with
      | .error e => .error e
      | .ok vs => .ok (v :: vs)

/-- `does_field_exist`: fetch the fields snapshot and test
`field_name in [field['name'] for field in schema['fields']]`. -/
def does_field_exist (s : Schema) (collection : String) (field_name : JVal)
    (st : St) : Except PyError Bool × St :=
  let r := get_schema_fields s collection st
  let res : Except PyError Bool :=
    match getItem r.1 "fields" with
    | .error e => .error e
    | .ok fieldsVal =>
      match pyIter fieldsVal with
      | .error e => .error e
      | .ok fields =>
        match namesOf fields with
        | .error e => .error e
        | .ok names => .ok (pyMem field_name names)
  (res, r.2)

/-- `does_field_type_exist`: fetch the field-type snapshot and test
`field_type_name in [field['name'] for field in schema_types['fieldTypes']]`. -/
def does_field_type_exist (s : Schema) (collection : String)
    (field_type_name : JVal) (st : St) : Except PyError Bool × St :=
  let r := get_schema_field_types s collection st
  let res : Except PyError Bool :=
    match getItem r.1 "fieldTypes" with
    | .error e => .error e
    | .ok typesVal =>
      match pyIter typesVal with
      | .error e => .error e
      | .ok types =>
        match namesOf types with
        | .error e => .error e
        | .ok names => .ok (pyMem field_type_name names)
  (res, r.2)

/-- The search loop of `get_field` / `get_field_type`:
`for field in fields: if name == field['name']: return field`. -/
def findByName (field_name : JVal) : List JVal → Except PyError (Option JVal)
  | [] => .ok none
  | f :: rest =>
    match getItem f "name" with
    | .error e => .error e
    | .ok v => if pyEq field_name v then .ok (some f) else findByName field_name rest

/-- The loop of `does_copy_field_exist`: return `True` at the first record
whose `source` and `dest` both match, `False` past the end.  Python's `and`
short-circuits, so `field['dest']` is read only when the source matched. -/
def findCopyRule (source dest : JVal) : List JVal → Except PyError Bool
  | [] => .ok false
  | f :: rest =>
    match getItem f "source" with
    | .error e => .error e
    | .ok sv =>
      if pyEq sv source then
        match getItem f "dest" with
        | .error e => .error e
        | .ok dv => if pyEq dv dest then .ok true else findCopyRule source dest rest
      else
        findCopyRule source dest rest

/-- `does_copy_field_exist`: fetch the copy-field snapshot and scan for a
record matching both `source` and `dest`. -/
def does_copy_field_exist (s : Schema) (collection : String)
    (source_field_name dest_field_name : JVal) (st : St) :
    Except PyError Bool × St :=
  let r := get_schema_copyfields s collection st
  let res : Except PyError Bool :=
    match r.1 with
    | .error e => .error e
    | .ok copyVal =>
      match pyIter copyVal with
      | .error e => .error e
      | .ok rules => findCopyRule source_field_name dest_field_name rules
  (res, r.2)

/-- `get_field`: fetches the fields snapshot but then iterates
`schema['fieldTypes']` — the source reads the `'fieldTypes'` key of the
`schema/fields` response (schema.py line 103). -/
def get_field (s : Schema) (collection : String) (field_name : JVal) (st : St) :
    Except PyError JVal × St :=
  let r := get_schema_fields s collection st
  let res : Except PyError JVal :=
    match getItem r.1 "fieldTypes" with
    | .error e => .error e
    | .ok ftVal =>
      match pyIter ftVal with
      | .error e => .error e
      | .ok fields =>
        match findByName field_name fields with
        | .error e => .error e
        | .ok (some f) => .ok f
        | .ok none =>
          .error (.valueError ("Field " ++ pyStr field_name
            ++ " Does Not Exists in Solr Collection " ++ collection))
  (res, r.2)

/-- `get_field_type`: fetch the field-type snapshot, scan
`schema_types['fieldTypes']` by name, raise `ValueError` naming the field
type and the collection when absent. -/
def get_field_type (s : Schema) (collection : String) (field_type_name : JVal)
    (st : St) : Except PyError JVal × St :=
  let r := get_schema_field_types s collection st
  let res : Except PyError JVal :=
    match getItem r.1 "fieldTypes" with
    | .error e => .error e
    | .ok ftVal =>
      match pyIter ftVal with
      | .error e => .error e
      | .ok types =>
        match findByName field_type_name types with
        | .error e => .error e
        | .ok (some f) => .ok f
        | .ok none =>
          .error (.valueError ("Field Type " ++ pyStr field_type_name
            ++ " Does Not Exists in Solr Collection " ++ collection))
  (res, r.2)

/-- `create_field`: precheck via `does_field_exist` on `field_dict['name']`,
raise `ValueError` when present, else POST `{"add-field": dict(field_dict)}`
to `schema/` and return the response. -/
def create_field (s : Schema) (collection : String)
    (field_dict : List (String × JVal)) (st : St) : Except PyError JVal × St :=
  match dictGet field_dict "name" with
  | .error e => (.error e, st)
  | .ok nameVal =>
    match does_field_exist s collection nameVal st with
    | (.error e, st1) => (.error e, st1)
    | (.ok true, st1) =>
      (.error (.valueError ("Field " ++ pyStr nameVal
        ++ " Already Exists in Solr Collection " ++ collection)), st1)
    | (.ok false, st1) =>
      let temp := JVal.obj [("add-field", JVal.obj field_dict)]
      let r := sendRequest s.transport "POST" schema_endpoint collection (some temp) st1
      (.ok r.1.1, r.2)

/-- `replace_field`: precheck via `does_field_exist`, raise `ValueError` when
absent, else POST `{"replace-field": dict(field_dict)}`. -/
def replace_field (s : Schema) (collection : String)
    (field_dict : List (String × JVal)) (st : St) : Except PyError JVal × St :=
  match dictGet field_dict "name" with
  | .error e => (.error e, st)
  | .ok nameVal =>
    match does_field_exist s collection nameVal st with
    | (.error e, st1) => (.error e, st1)
    | (.ok false, st1) =>
      (.error (.valueError ("Field " ++ pyStr nameVal
        ++ " does not exists in Solr Collection " ++ collection)), st1)
    | (.ok true, st1) =>
      let temp := JVal.obj [("replace-field", JVal.obj field_dict)]
      let r := sendRequest s.transport "POST" schema_endpoint collection (some temp) st1
      (.ok r.1.1, r.2)

/-- `delete_field`: precheck via `does_field_exist`, raise `ValueError` when
absent, else POST `{"delete-field": {"name": field_name}}`. -/
def delete_field (s : Schema) (collection : String) (field_name : JVal)
    (st : St) : Except PyError JVal × St :=
  match does_field_exist s collection field_name st with
  | (.error e, st1) => (.error e, st1)
  | (.ok false, st1) =>
    (.error (.valueError ("Field " ++ pyStr field_name
      ++ " Doesn\x27t Exists in Solr Collection " ++ collection)), st1)
  | (.ok true, st1) =>
    let temp := JVal.obj [("delete-field", JVal.obj [("name", field_name)])]
    let r := sendRequest s.transport "POST" schema_endpoint collection (some temp) st1
    (.ok r.1.1, r.2)

/-- `create_copy_field`: no precheck, no read — POST
`{"add-copy-field": dict(copy_dict)}` to `schema/` and return the response. -/
def create_copy_field (s : Schema) (collection : String)
    (copy_dict : List (String × JVal)) (st : St) : JVal × St :=
  let temp := JVal.obj [("add-copy-field", JVal.obj copy_dict)]
  let r := sendRequest s.transport "POST" schema_endpoint collection (some temp) st
  (r.1.1, r.2)

/-- `delete_copy_field`: optional devel debug line, fetch the copy-field
snapshot, log (info) when `copy_dict not in copyfields`, then POST
`{"delete-copy-field": dict(copy_dict)}` regardless and return the response. -/
def delete_copy_field (s : Schema) (collection : String)
    (copy_dict : List (String × JVal)) (st : St) : Except PyError JVal × St :=
  let st0 :=
    if s.devel then
      { st with logs := st.logs ++ ["Deleting " ++ pyStr (JVal.obj copy_dict)] }
    else st
  match get_schema_copyfields s collection st0 with
  | (.error e, st1) => (.error e, st1)
  | (.ok copyfields, st1) =>
    match pyContains copyfields (JVal.obj copy_dict) with
    | .error e => (.error e, st1)
    | .ok isIn =>
      let st2 :=
        if isIn then st1
        else
          { st1 with logs := st1.logs ++
            ["Fieldset not in Solr Copy Fields: " ++ pyStr (JVal.obj copy_dict)] }
      let temp := JVal.obj [("delete-copy-field", JVal.obj copy_dict)]
      let r := sendRequest s.transport "POST" schema_endpoint collection (some temp) st2
      (.ok r.1.1, r.2)

/-- `create_field_type`: precheck via `does_field_type_exist` on
`field_type_dict['name']`, raise `ValueError` when present, else POST
`{"add-field-type": dict(field_type_dict)}`. -/
def create_field_type (s : Schema) (collection : String)
    (field_type_dict : List (String × JVal)) (st : St) : Except PyError JVal × St :=
  match dictGet field_type_dict "name" with
  | .error e => (.error e, st)
  | .ok nameVal =>
    match does_field_type_exist s collection nameVal st with
    | (.error e, st1) => (.error e, st1)
    | (.ok true, st1) =>
      (.error (.valueError ("Field Type " ++ pyStr nameVal
        ++ " Already Exists in Solr Collection " ++ collection)), st1)
    | (.ok false, st1) =>
      let temp := JVal.obj [("add-field-type", JVal.obj field_type_dict)]
      let r := sendRequest s.transport "POST" schema_endpoint collection (some temp) st1
      (.ok r.1.1, r.2)

/-- `replace_field_type`: precheck via `does_field_type_exist`, raise
`ValueError` when absent, else POST `{"replace-field-type": dict(field_type_dict)}`. -/
def replace_field_type (s : Schema) (collection : String)
    (field_type_dict : List (String × JVal)) (st : St) : Except PyError JVal × St :=
  match dictGet field_type_dict "name" with
  | .error e => (.error e, st)
  | .ok nameVal =>
    match does_field_type_exist s collection nameVal st with
    | (.error e, st1) => (.error e, st1)
    | (.ok false, st1) =>
      (.error (.valueError ("Field Type " ++ pyStr nameVal
        ++ " does not exists in Solr Collection " ++ collection)), st1)
    | (.ok true, st1) =>
      let temp := JVal.obj [("replace-field-type", JVal.obj field_type_dict)]
      let r := sendRequest s.transport "POST" schema_endpoint collection (some temp) st1
      (.ok r.1.1, r.2)

/-! ### Dict-object heap, for the frame property of caller-supplied specs

Python dicts are mutable heap objects.  The methods taking a spec dict only
ever read it and copy it (`dict(spec)`, a fresh shallow copy wrapped in a
fresh single-key literal); no method performs an item assignment.  The heap
model makes that observable: cells hold dict contents, `writeItem` is the
mutation Python would use for `d[k] = v` (defined to show the model can
express it; no method calls it), and each heap-level wrapper performs exactly
the allocations of its method body, on the paths where the body reaches them. -/

/-- The dict-object heap: cell `r` holds the bindings of one dict. -/
structure Heap where
  cells : List (List (String × JVal))

/-- Contents of the dict at reference `r`. -/
def readRef (h : Heap) (r : Nat) : List (String × JVal) :=
  h.cells.getD r []

/-- Allocate a fresh dict with the given contents. -/
def allocRef (h : Heap) (d : List (String × JVal)) : Heap × Nat :=
  ({ cells := h.cells ++ [d] }, h.cells.length)

/-- Rebind a key within a dict's bindings (`d[k] = v`). -/
def setKey : List (String × JVal) → String → JVal → List (String × JVal)
  | [], key, v => [(key, v)]
  | (k, w) :: rest, key, v =>
    if k = key then (key, v) :: rest else (k, w) :: setKey rest key v

/-- Python item assignment `h[r][key] = v` — never invoked by the methods. -/
def writeItem (h : Heap) (r : Nat) (key : String) (v : JVal) : Heap :=
  { cells := h.cells.set r (setKey (readRef h r) key v) }

/-- The two allocations of a spec-taking mutation body: the shallow copy
`dict(spec)` and the single-key literal `{verb: dict(spec)}`. -/
def allocBody (h : Heap) (verb : String) (d : List (String × JVal)) : Heap :=
  (allocRef (allocRef h d).1 [(verb, JVal.obj d)]).1

/-- Heap-level `create_field`: the caller's dict lives at `specRef`; the body
allocates its copy and literal exactly on the success path (the path that
reaches `temp = {"add-field": dict(field_dict)}`). -/
def create_field_ref (s : Schema) (collection : String) (h : Heap)
    (specRef : Nat) (st : St) : (Except PyError JVal × St) × Heap :=
  let r := create_field s collection (readRef h specRef) st
  match r.1 with
  | .ok _ => (r, allocBody h "add-field" (readRef h specRef))
  | .error _ => (r, h)

/-- Heap-level `replace_field`. -/
def replace_field_ref (s : Schema) (collection : String) (h : Heap)
    (specRef : Nat) (st : St) : (Except PyError JVal × St) × Heap :=
  let r := replace_field s collection (readRef h specRef) st
  match r.1 with
  | .ok _ => (r, allocBody h "replace-field" (readRef h specRef))
  | .error _ => (r, h)

/-- Heap-level `create_field_type`. -/
def create_field_type_ref (s : Schema) (collection : String) (h : Heap)
    (specRef : Nat) (st : St) : (Except PyError JVal × St) × Heap :=
  let r := create_field_type s collection (readRef h specRef) st
  match r.1 with
  | .ok _ => (r, allocBody h "add-field-type" (readRef h specRef))
  | .error _ => (r, h)

/-- Heap-level `replace_field_type`. -/
def replace_field_type_ref (s : Schema) (collection : String) (h : Heap)
    (specRef : Nat) (st : St) : (Except PyError JVal × St) × Heap :=
  let r := replace_field_type s collection (readRef h specRef) st
  match r.1 with
  | .ok _ => (r, allocBody h "replace-field-type" (readRef h specRef))
  | .error _ => (r, h)

/-- Heap-level `create_copy_field`: its body always reaches the literal. -/
def create_copy_field_ref (s : Schema) (collection : String) (h : Heap)
    (specRef : Nat) (st : St) : (JVal × St) × Heap :=
  (create_copy_field s collection (readRef h specRef) st,
   allocBody h "add-copy-field" (readRef h specRef))

/-- Heap-level `delete_copy_field`: the literal is reached exactly when the
snapshot fetch and membership test succeed, i.e. on the `.ok` path. -/
def delete_copy_field_ref (s : Schema) (collection : String) (h : Heap)
    (specRef : Nat) (st : St) : (Except PyError JVal × St) × Heap :=
  let r := delete_copy_field s collection (readRef h specRef) st
  match r.1 with
  | .ok _ => (r, allocBody h "delete-copy-field" (readRef h specRef))
  | .error _ => (r, h)

/-! ### Requests, traces and transport responses -/

/-- Mutating transport calls are exactly the POSTs. -/
def isPost (req : Request) : Bool := req.method = "POST"

/-- The mutating requests of a state's trace. -/
def posts (st : St) : List Request := st.trace.filter isPost

/-- The requests a run starting at `st` and ending at `st2` appended. -/
def newReqs (st st2 : St) : List Request := st2.trace.drop st.trace.length

/-- The GET issued by `get_schema_fields`. -/
def getFieldsReq (c : String) : Request := ⟨"GET", "schema/fields", c, none⟩

/-- The GET issued by `get_schema_copyfields`. -/
def getCopyFieldsReq (c : String) : Request := ⟨"GET", "schema/copyfields", c, none⟩

/-- The GET issued by `get_schema_field_types`. -/
def getFieldTypesReq (c : String) : Request := ⟨"GET", "schema/fieldtypes", c, none⟩

/-- The POST a spec-taking mutation issues: single-key body `{verb: spec}`
sent to the fixed `schema/` endpoint of the collection. -/
def patchReq (c verb : String) (d : List (String × JVal)) : Request :=
  ⟨"POST", schema_endpoint, c, some (JVal.obj [(verb, JVal.obj d)])⟩

/-- The parsed response the transport gives for a request. -/
def respOf (s : Schema) (req : Request) : JVal := (s.transport.respond req).1

/-- The state after one GET of the fields snapshot. -/
def afterReq (st : St) (req : Request) : St :=
  { st with trace := st.trace ++ [req] }

/-- The outcome of an existence check against a parsed snapshot response:
`name in [field['name'] for field in resp[key]]`. -/
def existsOutcome (resp : JVal) (key : String) (n : JVal) : Except PyError Bool :=
  match getItem resp key with
  | .error e => .error e
  | .ok v =>
    match pyIter v with
    | .error e => .error e
    | .ok fields =>
      match namesOf fields with
      | .error e => .error e
      | .ok names => .ok (pyMem n names)

/-- The devel-mode debug line of `delete_copy_field`. -/
def develLogs (s : Schema) (d : List (String × JVal)) : List String :=
  if s.devel then ["Deleting " ++ pyStr (JVal.obj d)] else []

/-- The info line `delete_copy_field` emits when the rule is absent. -/
def missLogs (rules : List JVal) (d : List (String × JVal)) : List String :=
  if pyMem (JVal.obj d) rules then [] else
    ["Fieldset not in Solr Copy Fields: " ++ pyStr (JVal.obj d)]

/-! ### Concrete fixtures, for counterexamples and witnesses -/

/-- The empty starting state. -/
def st0 : St := ⟨[], []⟩

/-- A one-record fields list: `[{"name": "title"}]`. -/
def exFieldsList : List JVal := [JVal.obj [("name", JVal.str "title")]]

/-- A fields response `{"fields": [{"name": "title"}]}`. -/
def exFieldsResp : JVal := JVal.obj [("fields", JVal.arr exFieldsList)]

/-- A transport answering every request with `exFieldsResp`. -/
def exT1 : Transport := ⟨fun _ => (exFieldsResp, JVal.obj [])⟩

/-- A schema client over `exT1`, devel off. -/
def exS1 : Schema := ⟨exT1, false⟩

/-- A canned POST response, `{"responseHeader": {"status": 0}}`. -/
def exPostResp : JVal := JVal.obj [("responseHeader", JVal.obj [("status", JVal.num 0)])]

/-- A transport with empty fields, field-type and copy-field snapshots, and
`exPostResp` for every POST. -/
def exT2 : Transport :=
  ⟨fun req =>
    if req.method = "POST" then (exPostResp, JVal.obj [])
    else if req.endpoint = "schema/fields" then
      (JVal.obj [("fields", JVal.arr [])], JVal.obj [])
    else if req.endpoint = "schema/fieldtypes" then
      (JVal.obj [("fieldTypes", JVal.arr [])], JVal.obj [])
    else (JVal.obj [("copyFields", JVal.arr [])], JVal.obj [])⟩

/-- A schema client over `exT2`, devel off. -/
def exS2 : Schema := ⟨exT2, false⟩

/-- The spec scenario dict `{"name":"sell-by","type":"tdate","stored":true}`. -/
def exSellBy : List (String × JVal) :=
  [("name", JVal.str "sell-by"), ("type", JVal.str "tdate"), ("stored", JVal.bool true)]

/-- A copy rule `{"source":"title","dest":"text"}`. -/
def exCopy : List (String × JVal) :=
  [("source", JVal.str "title"), ("dest", JVal.str "text")]

/-- A transport whose copy-field snapshot holds exactly `exCopy`, with
`exPostResp` for every POST. -/
def exT4 : Transport :=
  ⟨fun req =>
    if req.method = "POST" then (exPostResp, JVal.obj [])
    else (JVal.obj [("copyFields", JVal.arr [JVal.obj exCopy])], JVal.obj [])⟩

/-! ### Characterization lemmas: one per control-flow path of each method -/

lemma does_field_exist_eq (s : Schema) (c : String) (n : JVal) (st : St) :
    does_field_exist s c n st
      = (existsOutcome (respOf s (getFieldsReq c)) "fields" n,
         afterReq st (getFieldsReq c)) := rfl

lemma does_field_type_exist_eq (s : Schema) (c : String) (n : JVal) (st : St) :
    does_field_type_exist s c n st
      = (existsOutcome (respOf s (getFieldTypesReq c)) "fieldTypes" n,
         afterReq st (getFieldTypesReq c)) := rfl

lemma get_schema_copyfields_eq (s : Schema) (c : String) (st : St) :
    get_schema_copyfields s c st
      = (getItem (respOf s (getCopyFieldsReq c)) "copyFields",
         afterReq st (getCopyFieldsReq c)) := rfl

lemma create_field_name_error (s : Schema) (c : String) (st : St)
    {d : List (String × JVal)} {e : PyError} (h : dictGet d "name" = .error e) :
    create_field s c d st = (.error e, st) := by
  simp only [create_field, h]

lemma create_field_check_error (s : Schema) (c : String) (st : St)
    {d : List (String × JVal)} {n : JVal} {e : PyError}
    (hn : dictGet d "name" = .ok n)
    (hc : existsOutcome (respOf s (getFieldsReq c)) "fields" n = .error e) :
    create_field s c d st = (.error e, afterReq st (getFieldsReq c)) := by
  simp only [create_field, hn, does_field_exist_eq, hc]

lemma create_field_already (s : Schema) (c : String) (st : St)
    {d : List (String × JVal)} {n : JVal}
    (hn : dictGet d "name" = .ok n)
    (hc : existsOutcome (respOf s (getFieldsReq c)) "fields" n = .ok true) :
    create_field s c d st
      = (.error (.valueError ("Field " ++ pyStr n
          ++ " Already Exists in Solr Collection " ++ c)),
         afterReq st (getFieldsReq c)) := by
  simp only [create_field, hn, does_field_exist_eq, hc]

lemma create_field_adds (s : Schema) (c : String) (st : St)
    {d : List (String × JVal)} {n : JVal}
    (hn : dictGet d "name" = .ok n)
    (hc : existsOutcome (respOf s (getFieldsReq c)) "fields" n = .ok false) :
    create_field s c d st
      = (.ok (respOf s (patchReq c "add-field" d)),
         afterReq (afterReq st (getFieldsReq c)) (patchReq c "add-field" d)) := by
  simp only [create_field, hn, does_field_exist_eq, hc]
  rfl

lemma replace_field_name_error (s : Schema) (c : String) (st : St)
    {d : List (String × JVal)} {e : PyError} (h : dictGet d "name" = .error e) :
    replace_field s c d st = (.error e, st) := by
  simp only [replace_field, h]

lemma replace_field_check_error (s : Schema) (c : String) (st : St)
    {d : List (String × JVal)} {n : JVal} {e : PyError}
    (hn : dictGet d "name" = .ok n)
    (hc : existsOutcome (respOf s (getFieldsReq c)) "fields" n = .error e) :
    replace_field s c d st = (.error e, afterReq st (getFieldsReq c)) := by
  simp only [replace_field, hn, does_field_exist_eq, hc]

lemma replace_field_absent (s : Schema) (c : String) (st : St)
    {d : List (String × JVal)} {n : JVal}
    (hn : dictGet d "name" = .ok n)
    (hc : existsOutcome (respOf s (getFieldsReq c)) "fields" n = .ok false) :
    replace_field s c d st
      = (.error (.valueError ("Field " ++ pyStr n
          ++ " does not exists in Solr Collection " ++ c)),
         afterReq st (getFieldsReq c)) := by
  simp only [replace_field, hn, does_field_exist_eq, hc]

lemma replace_field_replaces (s : Schema) (c : String) (st : St)
    {d : List (String × JVal)} {n : JVal}
    (hn : dictGet d "name" = .ok n)
    (hc : existsOutcome (respOf s (getFieldsReq c)) "fields" n = .ok true) :
    replace_field s c d st
      = (.ok (respOf s (patchReq c "replace-field" d)),
         afterReq (afterReq st (getFieldsReq c)) (patchReq c "replace-field" d)) := by
  simp only [replace_field, hn, does_field_exist_eq, hc]
  rfl

lemma delete_field_check_error (s : Schema) (c : String) (st : St)
    {n : JVal} {e : PyError}
    (hc : existsOutcome (respOf s (getFieldsReq c)) "fields" n = .error e) :
    delete_field s c n st = (.error e, afterReq st (getFieldsReq c)) := by
  simp only [delete_field, does_field_exist_eq, hc]

lemma delete_field_absent (s : Schema) (c : String) (st : St) {n : JVal}
    (hc : existsOutcome (respOf s (getFieldsReq c)) "fields" n = .ok false) :
    delete_field s c n st
      = (.error (.valueError ("Field " ++ pyStr n
          ++ " Doesn\x27t Exists in Solr Collection " ++ c)),
         afterReq st (getFieldsReq c)) := by
  simp only [delete_field, does_field_exist_eq, hc]

lemma delete_field_deletes (s : Schema) (c : String) (st : St) {n : JVal}
    (hc : existsOutcome (respOf s (getFieldsReq c)) "fields" n = .ok true) :
    delete_field s c n st
      = (.ok (respOf s (patchReq c "delete-field" [("name", n)])),
         afterReq (afterReq st (getFieldsReq c))
           (patchReq c "delete-field" [("name", n)])) := by
  simp only [delete_field, does_field_exist_eq, hc]
  rfl

lemma create_field_type_name_error (s : Schema) (c : String) (st : St)
    {d : List (String × JVal)} {e : PyError} (h : dictGet d "name" = .error e) :
    create_field_type s c d st = (.error e, st) := by
  simp only [create_field_type, h]

lemma create_field_type_check_error (s : Schema) (c : String) (st : St)
    {d : List (String × JVal)} {n : JVal} {e : PyError}
    (hn : dictGet d "name" = .ok n)
    (hc : existsOutcome (respOf s (getFieldTypesReq c)) "fieldTypes" n = .error e) :
    create_field_type s c d st = (.error e, afterReq st (getFieldTypesReq c)) := by
  simp only [create_field_type, hn, does_field_type_exist_eq, hc]

lemma create_field_type_already (s : Schema) (c : String) (st : St)
    {d : List (String × JVal)} {n : JVal}
    (hn : dictGet d "name" = .ok n)
    (hc : existsOutcome (respOf s (getFieldTypesReq c)) "fieldTypes" n = .ok true) :
    create_field_type s c d st
      = (.error (.valueError ("Field Type " ++ pyStr n
          ++ " Already Exists in Solr Collection " ++ c)),
         afterReq st (getFieldTypesReq c)) := by
  simp only [create_field_type, hn, does_field_type_exist_eq, hc]

lemma create_field_type_adds (s : Schema) (c : String) (st : St)
    {d : List (String × JVal)} {n : JVal}
    (hn : dictGet d "name" = .ok n)
    (hc : existsOutcome (respOf s (getFieldTypesReq c)) "fieldTypes" n = .ok false) :
    create_field_type s c d st
      = (.ok (respOf s (patchReq c "add-field-type" d)),
         afterReq (afterReq st (getFieldTypesReq c)) (patchReq c "add-field-type" d)) := by
  simp only [create_field_type, hn, does_field_type_exist_eq, hc]
  rfl

lemma replace_field_type_name_error (s : Schema) (c : String) (st : St)
    {d : List (String × JVal)} {e : PyError} (h : dictGet d "name" = .error e) :
    replace_field_type s c d st = (.error e, st) := by
  simp only [replace_field_type, h]

lemma replace_field_type_check_error (s : Schema) (c : String) (st : St)
    {d : List (String × JVal)} {n : JVal} {e : PyError}
    (hn : dictGet d "name" = .ok n)
    (hc : existsOutcome (respOf s (getFieldTypesReq c)) "fieldTypes" n = .error e) :
    replace_field_type s c d st = (.error e, afterReq st (getFieldTypesReq c)) := by
  simp only [replace_field_type, hn, does_field_type_exist_eq, hc]

lemma replace_field_type_absent (s : Schema) (c : String) (st : St)
    {d : List (String × JVal)} {n : JVal}
    (hn : dictGet d "name" = .ok n)
    (hc : existsOutcome (respOf s (getFieldTypesReq c)) "fieldTypes" n = .ok false) :
    replace_field_type s c d st
      = (.error (.valueError ("Field Type " ++ pyStr n
          ++ " does not exists in Solr Collection " ++ c)),
         afterReq st (getFieldTypesReq c)) := by
  simp only [replace_field_type, hn, does_field_type_exist_eq, hc]

lemma replace_field_type_replaces (s : Schema) (c : String) (st : St)
    {d : List (String × JVal)} {n : JVal}
    (hn : dictGet d "name" = .ok n)
    (hc : existsOutcome (respOf s (getFieldTypesReq c)) "fieldTypes" n = .ok true) :
    replace_field_type s c d st
      = (.ok (respOf s (patchReq c "replace-field-type" d)),
         afterReq (afterReq st (getFieldTypesReq c))
           (patchReq c "replace-field-type" d)) := by
  simp only [replace_field_type, hn, does_field_type_exist_eq, hc]
  rfl

lemma delete_copy_field_fetch_error (s : Schema) (c : String) (st : St)
    {d : List (String × JVal)} {e : PyError}
    (hc : getItem (respOf s (getCopyFieldsReq c)) "copyFields" = .error e) :
    delete_copy_field s c d st
      = (.error e, ⟨st.trace ++ [getCopyFieldsReq c], st.logs ++ develLogs s d⟩) := by
  have hrw : ∀ st1 : St, get_schema_copyfields s c st1
      = (.error e, afterReq st1 (getCopyFieldsReq c)) := by
    intro st1
    rw [get_schema_copyfields_eq, hc]
  cases hdev : s.devel <;>
    simp [delete_copy_field, hdev, hrw, develLogs, afterReq]

lemma delete_copy_field_contains_error (s : Schema) (c : String) (st : St)
    {d : List (String × JVal)} {v : JVal} {e : PyError}
    (hc : getItem (respOf s (getCopyFieldsReq c)) "copyFields" = .ok v)
    (hcon : pyContains v (JVal.obj d) = .error e) :
    delete_copy_field s c d st
      = (.error e, ⟨st.trace ++ [getCopyFieldsReq c], st.logs ++ develLogs s d⟩) := by
  have hrw : ∀ st1 : St, get_schema_copyfields s c st1
      = (.ok v, afterReq st1 (getCopyFieldsReq c)) := by
    intro st1
    rw [get_schema_copyfields_eq, hc]
  cases hdev : s.devel <;>
    simp [delete_copy_field, hdev, hrw, hcon, develLogs, afterReq]

lemma delete_copy_field_run (s : Schema) (c : String) (st : St)
    {d : List (String × JVal)} {rules : List JVal}
    (hc : getItem (respOf s (getCopyFieldsReq c)) "copyFields" = .ok (JVal.arr rules)) :
    delete_copy_field s c d st
      = (.ok (respOf s (patchReq c "delete-copy-field" d)),
         ⟨st.trace ++ [getCopyFieldsReq c, patchReq c "delete-copy-field" d],
          st.logs ++ develLogs s d ++ missLogs rules d⟩) := by
  have hrw : ∀ st1 : St, get_schema_copyfields s c st1
      = (.ok (JVal.arr rules), afterReq st1 (getCopyFieldsReq c)) := by
    intro st1
    rw [get_schema_copyfields_eq, hc]
  cases hdev : s.devel <;> cases hmem : pyMem (JVal.obj d) rules <;>
    simp only [delete_copy_field, hdev, hrw, pyContains, hmem, develLogs, missLogs,
      if_true, if_false, afterReq] <;>
    simp [sendRequest, respOf, patchReq, getCopyFieldsReq, schema_endpoint, afterReq]

lemma pyMem_namesOf {fs ns : List JVal} (h : namesOf fs = .ok ns) (n : JVal) :
    pyMem n ns = true
      ↔ ∃ f ∈ fs, ∃ v, getItem f "name" = .ok v ∧ pyEq n v = true := by
  induction fs generalizing ns with
  | nil =>
    injection h with h1
    subst h1
    simp [pyMem]
  | cons f rest ih =>
    cases hf : getItem f "name" with
    | error e =>
      rw [namesOf, hf] at h
      exact absurd h (by simp)
    | ok v =>
      cases hr : namesOf rest with
      | error e =>
        rw [namesOf, hf, hr] at h
        exact absurd h (by simp)
      | ok vs =>
        rw [namesOf, hf, hr] at h
        injection h with h1
        subst h1
        rw [pyMem, Bool.or_eq_true, ih hr]
        constructor
        · rintro (h1 | ⟨f2, hmem, v2, hv2, heq⟩)
          · exact ⟨f, List.mem_cons_self f rest, v, hf, h1⟩
          · exact ⟨f2, List.mem_cons_of_mem f hmem, v2, hv2, heq⟩
        · rintro ⟨f2, hmem, v2, hv2, heq⟩
          rcases List.mem_cons.mp hmem with rfl | hmem2
          · rw [hf] at hv2
            injection hv2 with hvv
            subst hvv
            exact Or.inl heq
          · exact Or.inr ⟨f2, hmem2, v2, hv2, heq⟩

lemma findCopyRule_ok {src dst : JVal} {rules : List JVal}
    (hwf : ∀ f ∈ rules, (∃ sv, getItem f "source" = .ok sv)
      ∧ (∃ dv, getItem f "dest" = .ok dv)) :
    ∃ b, findCopyRule src dst rules = .ok b
      ∧ (b = true ↔ ∃ f ∈ rules, ∃ sv dv, getItem f "source" = .ok sv
          ∧ getItem f "dest" = .ok dv ∧ pyEq sv src = true ∧ pyEq dv dst = true) := by
  induction rules with
  | nil => exact ⟨false, rfl, by simp⟩
  | cons f rest ih =>
    obtain ⟨⟨sv, hsv⟩, dv, hdv⟩ := hwf f (List.mem_cons_self f rest)
    obtain ⟨b, hb, hiff⟩ := ih (fun g hg => hwf g (List.mem_cons_of_mem f hg))
    cases hps : pyEq sv src with
    | false =>
      refine ⟨b, by simp [findCopyRule, hsv, hps, hb], ?_⟩
      rw [hiff]
      constructor
      · rintro ⟨f2, hmem, hrest⟩
        exact ⟨f2, List.mem_cons_of_mem f hmem, hrest⟩
      · rintro ⟨f2, hmem, sv2, dv2, hsv2, hdv2, hps2, hpd2⟩
        rcases List.mem_cons.mp hmem with rfl | hmem2
        · rw [hsv] at hsv2
          injection hsv2 with hvv
          subst hvv
          rw [hps] at hps2
          exact Bool.noConfusion hps2
        · exact ⟨f2, hmem2, sv2, dv2, hsv2, hdv2, hps2, hpd2⟩
    | true =>
      cases hpd : pyEq dv dst with
      | true =>
        refine ⟨true, by simp [findCopyRule, hsv, hps, hdv, hpd], ?_⟩
        exact ⟨fun _ => ⟨f, List.mem_cons_self f rest, sv, dv, hsv, hdv, hps, hpd⟩,
          fun _ => rfl⟩
      | false =>
        refine ⟨b, by simp [findCopyRule, hsv, hps, hdv, hpd, hb], ?_⟩
        rw [hiff]
        constructor
        · rintro ⟨f2, hmem, hrest⟩
          exact ⟨f2, List.mem_cons_of_mem f hmem, hrest⟩
        · rintro ⟨f2, hmem, sv2, dv2, hsv2, hdv2, hps2, hpd2⟩
          rcases List.mem_cons.mp hmem with rfl | hmem2
          · rw [hdv] at hdv2
            injection hdv2 with hvv
            subst hvv
            rw [hpd] at hpd2
            exact Bool.noConfusion hpd2
          · exact ⟨f2, hmem2, sv2, dv2, hsv2, hdv2, hps2, hpd2⟩

lemma readRef_allocBody (h : Heap) (verb : String) (d : List (String × JVal))
    (r : Nat) (hr : r < h.cells.length) :
    readRef (allocBody h verb d) r = readRef h r := by
  have hcells : (allocBody h verb d).cells
      = (h.cells ++ [d]) ++ [[(verb, JVal.obj d)]] := rfl
  have h1 : r < (h.cells ++ [d]).length := by
    simp only [List.length_append, List.length_cons, List.length_nil]
    omega
  simp only [readRef, hcells]
  rw [List.getD_append _ _ _ _ h1, List.getD_append _ _ _ _ hr]

lemma pyContains_obj_ok {v : JVal} {d : List (String × JVal)} {b : Bool}
    (h : pyContains v (JVal.obj d) = .ok b) : ∃ rules, v = JVal.arr rules := by
  cases v with
  | arr xs => exact ⟨xs, rfl⟩
  | str s => simp [pyContains] at h
  | bool c => simp [pyContains] at h
  | num n => simp [pyContains] at h
  | obj kvs => simp [pyContains] at h

lemma posts_afterReq (st : St) (req : Request) (h : isPost req = false) :
    posts (afterReq st req) = posts st := by
  simp [posts, afterReq, List.filter_append, h]

lemma newReqs_mk (st : St) (l : List Request) (lg : List String) :
    newReqs st ⟨st.trace ++ l, lg⟩ = l := by
  simp [newReqs]

lemma newReqs_self (st : St) : newReqs st st = [] := by
  simp [newReqs]

lemma newReqs_one (st : St) (r1 : Request) : newReqs st (afterReq st r1) = [r1] :=
  newReqs_mk st [r1] st.logs

lemma newReqs_two (st : St) (r1 r2 : Request) :
    newReqs st (afterReq (afterReq st r1) r2) = [r1, r2] := by
  have : afterReq (afterReq st r1) r2 = ⟨st.trace ++ [r1, r2], st.logs⟩ := by
    simp [afterReq]
  rw [this, newReqs_mk]

/-! ### Claim theorems -/

/-- Claim C1 (code bug): the spec says `getField(collection, name)` fetches
the fields snapshot and linear-searches it by name, returning the record
named `name` when present.  The code fetches the `schema/fields` snapshot but
then subscripts it with `'fieldTypes'` (schema.py line 103): on a standard
fields response `{"fields": [{"name": "title"}]}` that key is absent, so
`get_field` raises `KeyError('fieldTypes')` even though a record named
`"title"` is present and the search the spec describes would find it.
`get_field_type`, the claim's other half, behaves as specified: on a
field-type snapshot lacking `"ghost"` it raises the `ValueError` naming
`"ghost"` and `"docs"`. -/
theorem get_field_reads_fieldTypes_key_of_fields_response :
    get_field exS1 "docs" (JVal.str "title") st0
      = (.error (.keyError "fieldTypes"), afterReq st0 (getFieldsReq "docs"))
    ∧ getItem exFieldsResp "fields" = .ok (JVal.arr exFieldsList)
    ∧ findByName (JVal.str "title") exFieldsList
      = .ok (some (JVal.obj [("name", JVal.str "title")]))
    ∧ get_field_type exS2 "docs" (JVal.str "ghost") st0
      = (.error (.valueError
          "Field Type ghost Does Not Exists in Solr Collection docs"),
         afterReq st0 (getFieldTypesReq "docs")) := by
  refine ⟨rfl, rfl, ?_, ?_⟩
  · simp [findByName, exFieldsList, getItem, lookupKey, pyEq]
  · simp [get_field_type, get_schema_field_types, sendRequest, exS2, exT2, respOf,
      getFieldTypesReq, getItem, lookupKey, pyIter, findByName, pyStr, afterReq]

/-- Claim C2 (counterexample): `get_schema_fields` does not return the
sequence of field records — on a transport whose fields response is
`{"fields": [{"name": "title"}]}` it returns that enclosing mapping itself,
which is not the record list. -/
theorem get_schema_fields_returns_wrapper_counterexample :
    (get_schema_fields exS1 "docs" st0).1 = exFieldsResp
    ∧ (get_schema_fields exS1 "docs" st0).1 ≠ JVal.arr exFieldsList := by
  refine ⟨rfl, ?_⟩
  intro h
  rw [show (get_schema_fields exS1 "docs" st0).1 = exFieldsResp from rfl] at h
  simp [exFieldsResp] at h

/-- Claim C2 (amended): `get_schema_fields` and `get_schema_field_types`
each return the transport's parsed response for the snapshot GET unchanged —
the full response mapping enclosing the records — after issuing exactly that
one GET; neither unwraps the record list. -/
theorem get_schema_snapshots_return_full_response (s : Schema) (c : String) (st : St) :
    get_schema_fields s c st
      = (respOf s (getFieldsReq c), afterReq st (getFieldsReq c))
    ∧ get_schema_field_types s c st
      = (respOf s (getFieldTypesReq c), afterReq st (getFieldTypesReq c)) :=
  ⟨rfl, rfl⟩

/-- Claim C7: `create_copy_field` issues the `add-copy-field` POST
unconditionally — for every transport, collection, spec and starting state it
appends exactly that one request (no GET, no precheck of any snapshot) and
returns the transport's response to it. -/
theorem create_copy_field_unconditional_post (s : Schema) (c : String)
    (d : List (String × JVal)) (st : St) :
    create_copy_field s c d st
      = (respOf s (patchReq c "add-copy-field" d),
         afterReq st (patchReq c "add-copy-field" d)) :=
  rfl

/-- Claim C3: for `create_field`, `replace_field`, `delete_field`,
`create_field_type` and `replace_field_type`, any run that raises — the
precondition `ValueError`s as well as the errors of the precondition check
itself — issues no mutating (POST) transport call: the POSTs of the final
trace are exactly those of the starting trace. -/
theorem mutating_ops_raise_before_any_post (s : Schema) (c : String)
    (d : List (String × JVal)) (n : JVal) (st : St) :
    (∀ e r, create_field s c d st = (.error e, r) → posts r = posts st)
    ∧ (∀ e r, replace_field s c d st = (.error e, r) → posts r = posts st)
    ∧ (∀ e r, delete_field s c n st = (.error e, r) → posts r = posts st)
    ∧ (∀ e r, create_field_type s c d st = (.error e, r) → posts r = posts st)
    ∧ (∀ e r, replace_field_type s c d st = (.error e, r) → posts r = posts st) := by
  refine ⟨?_, ?_, ?_, ?_, ?_⟩
  · intro e r h
    cases hn : dictGet d "name" with
    | error e2 =>
      rw [create_field_name_error s c st hn] at h
      injection h with h1 h2
      rw [← h2]
    | ok nv =>
      cases hc : existsOutcome (respOf s (getFieldsReq c)) "fields" nv with
      | error e2 =>
        rw [create_field_check_error s c st hn hc] at h
        injection h with h1 h2
        rw [← h2]
        exact posts_afterReq st _ rfl
      | ok b =>
        cases b with
        | true =>
          rw [create_field_already s c st hn hc] at h
          injection h with h1 h2
          rw [← h2]
          exact posts_afterReq st _ rfl
        | false =>
          rw [create_field_adds s c st hn hc] at h
          injection h with h1 h2
          exact Except.noConfusion h1
  · intro e r h
    cases hn : dictGet d "name" with
    | error e2 =>
      rw [replace_field_name_error s c st hn] at h
      injection h with h1 h2
      rw [← h2]
    | ok nv =>
      cases hc : existsOutcome (respOf s (getFieldsReq c)) "fields" nv with
      | error e2 =>
        rw [replace_field_check_error s c st hn hc] at h
        injection h with h1 h2
        rw [← h2]
        exact posts_afterReq st _ rfl
      | ok b =>
        cases b with
        | false =>
          rw [replace_field_absent s c st hn hc] at h
          injection h with h1 h2
          rw [← h2]
          exact posts_afterReq st _ rfl
        | true =>
          rw [replace_field_replaces s c st hn hc] at h
          injection h with h1 h2
          exact Except.noConfusion h1
  · intro e r h
    cases hc : existsOutcome (respOf s (getFieldsReq c)) "fields" n with
    | error e2 =>
      rw [delete_field_check_error s c st hc] at h
      injection h with h1 h2
      rw [← h2]
      exact posts_afterReq st _ rfl
    | ok b =>
      cases b with
      | false =>
        rw [delete_field_absent s c st hc] at h
        injection h with h1 h2
        rw [← h2]
        exact posts_afterReq st _ rfl
      | true =>
        rw [delete_field_deletes s c st hc] at h
        injection h with h1 h2
        exact Except.noConfusion h1
  · intro e r h
    cases hn : dictGet d "name" with
    | error e2 =>
      rw [create_field_type_name_error s c st hn] at h
      injection h with h1 h2
      rw [← h2]
    | ok nv =>
      cases hc : existsOutcome (respOf s (getFieldTypesReq c)) "fieldTypes" nv with
      | error e2 =>
        rw [create_field_type_check_error s c st hn hc] at h
        injection h with h1 h2
        rw [← h2]
        exact posts_afterReq st _ rfl
      | ok b =>
        cases b with
        | true =>
          rw [create_field_type_already s c st hn hc] at h
          injection h with h1 h2
          rw [← h2]
          exact posts_afterReq st _ rfl
        | false =>
          rw [create_field_type_adds s c st hn hc] at h
          injection h with h1 h2
          exact Except.noConfusion h1
  · intro e r h
    cases hn : dictGet d "name" with
    | error e2 =>
      rw [replace_field_type_name_error s c st hn] at h
      injection h with h1 h2
      rw [← h2]
    | ok nv =>
      cases hc : existsOutcome (respOf s (getFieldTypesReq c)) "fieldTypes" nv with
      | error e2 =>
        rw [replace_field_type_check_error s c st hn hc] at h
        injection h with h1 h2
        rw [← h2]
        exact posts_afterReq st _ rfl
      | ok b =>
        cases b with
        | false =>
          rw [replace_field_type_absent s c st hn hc] at h
          injection h with h1 h2
          rw [← h2]
          exact posts_afterReq st _ rfl
        | true =>
          rw [replace_field_type_replaces s c st hn hc] at h
          injection h with h1 h2
          exact Except.noConfusion h1

/-- Witness for C3: a concrete raising run — `replace_field` on the
`sell-by` spec against an empty fields snapshot — leaves the POSTs of the
trace unchanged. -/
theorem mutating_ops_raise_before_any_post_witness :
    posts (afterReq st0 (getFieldsReq "docs")) = posts st0 :=
  (mutating_ops_raise_before_any_post exS2 "docs" exSellBy
      (JVal.str "sell-by") st0).2.1
    (.valueError ("Field " ++ pyStr (JVal.str "sell-by")
      ++ " does not exists in Solr Collection " ++ "docs"))
    (afterReq st0 (getFieldsReq "docs"))
    (replace_field_absent exS2 "docs" st0 rfl rfl)

/-- Claim C5: with a well-formed copy-field snapshot (of any contents),
`delete_copy_field` never raises: it returns the transport's response to the
`delete-copy-field` POST, its trace gains the snapshot GET and exactly one
delete POST whether or not the rule is present, and when the rule is absent
the diagnostic info line is emitted. -/
theorem delete_copy_field_never_raises_and_posts (s : Schema) (c : String)
    (d : List (String × JVal)) (st : St) (rules : List JVal)
    (hc : getItem (respOf s (getCopyFieldsReq c)) "copyFields" = .ok (JVal.arr rules)) :
    delete_copy_field s c d st
      = (.ok (respOf s (patchReq c "delete-copy-field" d)),
         ⟨st.trace ++ [getCopyFieldsReq c, patchReq c "delete-copy-field" d],
          st.logs ++ develLogs s d ++ missLogs rules d⟩)
    ∧ (pyMem (JVal.obj d) rules = false →
        missLogs rules d
          = ["Fieldset not in Solr Copy Fields: " ++ pyStr (JVal.obj d)]) := by
  refine ⟨delete_copy_field_run s c st hc, ?_⟩
  intro hmem
  simp [missLogs, hmem]

/-- Witness for C5: deleting the absent rule `{"source":"title","dest":"text"}`
against an empty copy-field snapshot succeeds, logs the diagnostic, and sends
the one delete POST. -/
theorem delete_copy_field_never_raises_witness :
    delete_copy_field exS2 "docs" exCopy st0
      = (.ok exPostResp,
         ⟨[getCopyFieldsReq "docs", patchReq "docs" "delete-copy-field" exCopy],
          ["Fieldset not in Solr Copy Fields: " ++ pyStr (JVal.obj exCopy)]⟩) := by
  rw [(delete_copy_field_never_raises_and_posts exS2 "docs" exCopy st0 [] rfl).1]
  rfl

/-- Claim C4: `create_field` and `create_field_type` raise the
already-exists `ValueError` exactly when the existence query they perform
first reports the spec's name present (`b = true`); otherwise they append
exactly one `add` patch POST after the snapshot GET and return the
transport's parsed response to it unchanged. -/
theorem create_ops_already_exists_iff_precheck (s : Schema) (c : String)
    (d : List (String × JVal)) (st : St) (n : JVal) :
    (∀ b, dictGet d "name" = .ok n →
      existsOutcome (respOf s (getFieldsReq c)) "fields" n = .ok b →
      ((∃ r, create_field s c d st
          = (.error (.valueError ("Field " ++ pyStr n
              ++ " Already Exists in Solr Collection " ++ c)), r)) ↔ b = true)
      ∧ (b = false →
          create_field s c d st
            = (.ok (respOf s (patchReq c "add-field" d)),
               afterReq (afterReq st (getFieldsReq c)) (patchReq c "add-field" d))))
    ∧ (∀ b, dictGet d "name" = .ok n →
      existsOutcome (respOf s (getFieldTypesReq c)) "fieldTypes" n = .ok b →
      ((∃ r, create_field_type s c d st
          = (.error (.valueError ("Field Type " ++ pyStr n
              ++ " Already Exists in Solr Collection " ++ c)), r)) ↔ b = true)
      ∧ (b = false →
          create_field_type s c d st
            = (.ok (respOf s (patchReq c "add-field-type" d)),
               afterReq (afterReq st (getFieldTypesReq c))
                 (patchReq c "add-field-type" d)))) := by
  constructor
  · intro b hn hc
    cases b with
    | true =>
      refine ⟨⟨fun _ => rfl, ?_⟩, ?_⟩
      · intro _
        exact ⟨afterReq st (getFieldsReq c), create_field_already s c st hn hc⟩
      · intro hfalse
        exact absurd hfalse (by simp)
    | false =>
      refine ⟨⟨?_, ?_⟩, fun _ => create_field_adds s c st hn hc⟩
      · rintro ⟨r, hr⟩
        rw [create_field_adds s c st hn hc] at hr
        injection hr with h1 h2
        exact Except.noConfusion h1
      · intro hb
        exact absurd hb (by simp)
  · intro b hn hc
    cases b with
    | true =>
      refine ⟨⟨fun _ => rfl, ?_⟩, ?_⟩
      · intro _
        exact ⟨afterReq st (getFieldTypesReq c), create_field_type_already s c st hn hc⟩
      · intro hfalse
        exact absurd hfalse (by simp)
    | false =>
      refine ⟨⟨?_, ?_⟩, fun _ => create_field_type_adds s c st hn hc⟩
      · rintro ⟨r, hr⟩
        rw [create_field_type_adds s c st hn hc] at hr
        injection hr with h1 h2
        exact Except.noConfusion h1
      · intro hb
        exact absurd hb (by simp)

/-- Witness for C4, the spec scenario: against empty snapshots,
`create_field("docs", {"name":"sell-by","type":"tdate","stored":true})` sends
POST `schema/` with body `{"add-field": {...}}` after the fields GET and
returns the server response unchanged; likewise `create_field_type` with
body `{"add-field-type": {...}}`. -/
theorem create_ops_already_exists_iff_precheck_witness :
    create_field exS2 "docs" exSellBy st0
      = (.ok exPostResp,
         afterReq (afterReq st0 (getFieldsReq "docs"))
           (patchReq "docs" "add-field" exSellBy))
    ∧ create_field_type exS2 "docs" exSellBy st0
      = (.ok exPostResp,
         afterReq (afterReq st0 (getFieldTypesReq "docs"))
           (patchReq "docs" "add-field-type" exSellBy)) := by
  constructor
  · exact (((create_ops_already_exists_iff_precheck exS2 "docs" exSellBy st0
      (JVal.str "sell-by")).1 false rfl rfl).2 rfl).trans rfl
  · exact (((create_ops_already_exists_iff_precheck exS2 "docs" exSellBy st0
      (JVal.str "sell-by")).2 false rfl rfl).2 rfl).trans rfl

/-- Claim C6: every POST a mutating operation appends to the trace is
directed at the fixed `schema/` endpoint of the given collection with a
single-key body wrapping the caller's spec under the matching patch verb —
`add-field`, `replace-field`, `add-field-type`, `replace-field-type`,
`add-copy-field`, `delete-copy-field` — and `delete_field`'s body wraps
`{"name": field_name}`. -/
theorem mutation_bodies_single_key_post (s : Schema) (c : String)
    (d : List (String × JVal)) (n : JVal) (st : St) :
    (∀ r st2 req, create_field s c d st = (r, st2) →
      req ∈ newReqs st st2 → isPost req = true → req = patchReq c "add-field" d)
    ∧ (∀ r st2 req, replace_field s c d st = (r, st2) →
      req ∈ newReqs st st2 → isPost req = true → req = patchReq c "replace-field" d)
    ∧ (∀ r st2 req, delete_field s c n st = (r, st2) →
      req ∈ newReqs st st2 → isPost req = true →
      req = patchReq c "delete-field" [("name", n)])
    ∧ (∀ r st2 req, create_field_type s c d st = (r, st2) →
      req ∈ newReqs st st2 → isPost req = true → req = patchReq c "add-field-type" d)
    ∧ (∀ r st2 req, replace_field_type s c d st = (r, st2) →
      req ∈ newReqs st st2 → isPost req = true →
      req = patchReq c "replace-field-type" d)
    ∧ (∀ r st2 req, create_copy_field s c d st = (r, st2) →
      req ∈ newReqs st st2 → isPost req = true → req = patchReq c "add-copy-field" d)
    ∧ (∀ r st2 req, delete_copy_field s c d st = (r, st2) →
      req ∈ newReqs st st2 → isPost req = true →
      req = patchReq c "delete-copy-field" d) := by
  have hGfields : isPost (getFieldsReq c) = false := rfl
  have hGtypes : isPost (getFieldTypesReq c) = false := rfl
  have hGcopy : isPost (getCopyFieldsReq c) = false := rfl
  refine ⟨?_, ?_, ?_, ?_, ?_, ?_, ?_⟩
  · intro r st2 req h hm hp
    cases hn : dictGet d "name" with
    | error e2 =>
      rw [create_field_name_error s c st hn] at h
      injection h with h1 h2
      subst h2
      rw [newReqs_self] at hm
      exact absurd hm (List.not_mem_nil req)
    | ok nv =>
      cases hc : existsOutcome (respOf s (getFieldsReq c)) "fields" nv with
      | error e2 =>
        rw [create_field_check_error s c st hn hc] at h
        injection h with h1 h2
        subst h2
        rw [newReqs_one] at hm
        rw [List.mem_singleton.mp hm] at hp
        exact absurd hp (by simp [hGfields])
      | ok b =>
        cases b with
        | true =>
          rw [create_field_already s c st hn hc] at h
          injection h with h1 h2
          subst h2
          rw [newReqs_one] at hm
          rw [List.mem_singleton.mp hm] at hp
          exact absurd hp (by simp [hGfields])
        | false =>
          rw [create_field_adds s c st hn hc] at h
          injection h with h1 h2
          subst h2
          rw [newReqs_two] at hm
          rcases List.mem_pair.mp hm with rfl | rfl
          · exact absurd hp (by simp [hGfields])
          · rfl
  · intro r st2 req h hm hp
    cases hn : dictGet d "name" with
    | error e2 =>
      rw [replace_field_name_error s c st hn] at h
      injection h with h1 h2
      subst h2
      rw [newReqs_self] at hm
      exact absurd hm (List.not_mem_nil req)
    | ok nv =>
      cases hc : existsOutcome (respOf s (getFieldsReq c)) "fields" nv with
      | error e2 =>
        rw [replace_field_check_error s c st hn hc] at h
        injection h with h1 h2
        subst h2
        rw [newReqs_one] at hm
        rw [List.mem_singleton.mp hm] at hp
        exact absurd hp (by simp [hGfields])
      | ok b =>
        cases b with
        | false =>
          rw [replace_field_absent s c st hn hc] at h
          injection h with h1 h2
          subst h2
          rw [newReqs_one] at hm
          rw [List.mem_singleton.mp hm] at hp
          exact absurd hp (by simp [hGfields])
        | true =>
          rw [replace_field_replaces s c st hn hc] at h
          injection h with h1 h2
          subst h2
          rw [newReqs_two] at hm
          rcases List.mem_pair.mp hm with rfl | rfl
          · exact absurd hp (by simp [hGfields])
          · rfl
  · intro r st2 req h hm hp
    cases hc : existsOutcome (respOf s (getFieldsReq c)) "fields" n with
    | error e2 =>
      rw [delete_field_check_error s c st hc] at h
      injection h with h1 h2
      subst h2
      rw [newReqs_one] at hm
      rw [List.mem_singleton.mp hm] at hp
      exact absurd hp (by simp [hGfields])
    | ok b =>
      cases b with
      | false =>
        rw [delete_field_absent s c st hc] at h
        injection h with h1 h2
        subst h2
        rw [newReqs_one] at hm
        rw [List.mem_singleton.mp hm] at hp
        exact absurd hp (by simp [hGfields])
      | true =>
        rw [delete_field_deletes s c st hc] at h
        injection h with h1 h2
        subst h2
        rw [newReqs_two] at hm
        rcases List.mem_pair.mp hm with rfl | rfl
        · exact absurd hp (by simp [hGfields])
        · rfl
  · intro r st2 req h hm hp
    cases hn : dictGet d "name" with
    | error e2 =>
      rw [create_field_type_name_error s c st hn] at h
      injection h with h1 h2
      subst h2
      rw [newReqs_self] at hm
      exact absurd hm (List.not_mem_nil req)
    | ok nv =>
      cases hc : existsOutcome (respOf s (getFieldTypesReq c)) "fieldTypes" nv with
      | error e2 =>
        rw [create_field_type_check_error s c st hn hc] at h
        injection h with h1 h2
        subst h2
        rw [newReqs_one] at hm
        rw [List.mem_singleton.mp hm] at hp
        exact absurd hp (by simp [hGtypes])
      | ok b =>
        cases b with
        | true =>
          rw [create_field_type_already s c st hn hc] at h
          injection h with h1 h2
          subst h2
          rw [newReqs_one] at hm
          rw [List.mem_singleton.mp hm] at hp
          exact absurd hp (by simp [hGtypes])
        | false =>
          rw [create_field_type_adds s c st hn hc] at h
          injection h with h1 h2
          subst h2
          rw [newReqs_two] at hm
          rcases List.mem_pair.mp hm with rfl | rfl
          · exact absurd hp (by simp [hGtypes])
          · rfl
  · intro r st2 req h hm hp
    cases hn : dictGet d "name" with
    | error e2 =>
      rw [replace_field_type_name_error s c st hn] at h
      injection h with h1 h2
      subst h2
      rw [newReqs_self] at hm
      exact absurd hm (List.not_mem_nil req)
    | ok nv =>
      cases hc : existsOutcome (respOf s (getFieldTypesReq c)) "fieldTypes" nv with
      | error e2 =>
        rw [replace_field_type_check_error s c st hn hc] at h
        injection h with h1 h2
        subst h2
        rw [newReqs_one] at hm
        rw [List.mem_singleton.mp hm] at hp
        exact absurd hp (by simp [hGtypes])
      | ok b =>
        cases b with
        | false =>
          rw [replace_field_type_absent s c st hn hc] at h
          injection h with h1 h2
          subst h2
          rw [newReqs_one] at hm
          rw [List.mem_singleton.mp hm] at hp
          exact absurd hp (by simp [hGtypes])
        | true =>
          rw [replace_field_type_replaces s c st hn hc] at h
          injection h with h1 h2
          subst h2
          rw [newReqs_two] at hm
          rcases List.mem_pair.mp hm with rfl | rfl
          · exact absurd hp (by simp [hGtypes])
          · rfl
  · intro r st2 req h hm hp
    have hcc : create_copy_field s c d st
        = (respOf s (patchReq c "add-copy-field" d),
           afterReq st (patchReq c "add-copy-field" d)) := rfl
    rw [hcc] at h
    injection h with h1 h2
    subst h2
    rw [newReqs_one] at hm
    exact List.mem_singleton.mp hm
  · intro r st2 req h hm hp
    cases hg : getItem (respOf s (getCopyFieldsReq c)) "copyFields" with
    | error e2 =>
      rw [delete_copy_field_fetch_error s c st hg] at h
      injection h with h1 h2
      subst h2
      rw [newReqs_mk] at hm
      rw [List.mem_singleton.mp hm] at hp
      exact absurd hp (by simp [hGcopy])
    | ok v =>
      cases hcon : pyContains v (JVal.obj d) with
      | error e2 =>
        rw [delete_copy_field_contains_error s c st hg hcon] at h
        injection h with h1 h2
        subst h2
        rw [newReqs_mk] at hm
        rw [List.mem_singleton.mp hm] at hp
        exact absurd hp (by simp [hGcopy])
      | ok b =>
        obtain ⟨rules, rfl⟩ := pyContains_obj_ok hcon
        rw [delete_copy_field_run s c st hg] at h
        injection h with h1 h2
        subst h2
        rw [newReqs_mk] at hm
        rcases List.mem_pair.mp hm with rfl | rfl
        · exact absurd hp (by simp [hGcopy])
        · rfl

/-- Witness for C6, via the unconditional conjunct: the one request
`create_copy_field` appends on a concrete run is the `add-copy-field` patch
POST. -/
theorem mutation_bodies_single_key_post_witness :
    patchReq "docs" "add-copy-field" exCopy
      = patchReq "docs" "add-copy-field" exCopy :=
  (mutation_bodies_single_key_post exS2 "docs" exCopy (JVal.str "x") st0).2.2.2.2.2.1
    exPostResp (afterReq st0 (patchReq "docs" "add-copy-field" exCopy))
    (patchReq "docs" "add-copy-field" exCopy) rfl
    (by rw [newReqs_one]; exact List.mem_singleton.mpr rfl) rfl

/-- Claim C8: `does_field_exist` and `does_field_type_exist` fetch the full
relevant snapshot (one GET) and return `True` exactly when some record of
the snapshot's list carries a `name` entry equal to the queried name;
`does_copy_field_exist` fetches the copy-field snapshot and returns `True`
exactly when some record matches both the queried `source` and `dest`. -/
theorem exists_checks_full_fetch_linear_search (s : Schema) (c : String)
    (n src dst : JVal) (st : St) :
    (∀ fs ns, getItem (respOf s (getFieldsReq c)) "fields" = .ok (JVal.arr fs) →
      namesOf fs = .ok ns →
      does_field_exist s c n st = (.ok (pyMem n ns), afterReq st (getFieldsReq c))
      ∧ (pyMem n ns = true
          ↔ ∃ f ∈ fs, ∃ v, getItem f "name" = .ok v ∧ pyEq n v = true))
    ∧ (∀ fs ns, getItem (respOf s (getFieldTypesReq c)) "fieldTypes" = .ok (JVal.arr fs) →
      namesOf fs = .ok ns →
      does_field_type_exist s c n st
        = (.ok (pyMem n ns), afterReq st (getFieldTypesReq c))
      ∧ (pyMem n ns = true
          ↔ ∃ f ∈ fs, ∃ v, getItem f "name" = .ok v ∧ pyEq n v = true))
    ∧ (∀ rules, getItem (respOf s (getCopyFieldsReq c)) "copyFields" = .ok (JVal.arr rules) →
      (∀ f ∈ rules, (∃ sv, getItem f "source" = .ok sv)
        ∧ (∃ dv, getItem f "dest" = .ok dv)) →
      ∃ b, does_copy_field_exist s c src dst st = (.ok b, afterReq st (getCopyFieldsReq c))
        ∧ (b = true ↔ ∃ f ∈ rules, ∃ sv dv, getItem f "source" = .ok sv
            ∧ getItem f "dest" = .ok dv ∧ pyEq sv src = true ∧ pyEq dv dst = true)) := by
  refine ⟨?_, ?_, ?_⟩
  · intro fs ns hresp hnames
    refine ⟨?_, pyMem_namesOf hnames n⟩
    rw [does_field_exist_eq]
    simp only [existsOutcome, hresp, pyIter, hnames]
  · intro fs ns hresp hnames
    refine ⟨?_, pyMem_namesOf hnames n⟩
    rw [does_field_type_exist_eq]
    simp only [existsOutcome, hresp, pyIter, hnames]
  · intro rules hresp hwf
    obtain ⟨b, hb, hiff⟩ := @findCopyRule_ok src dst rules hwf
    refine ⟨b, ?_, hiff⟩
    have hrw : ∀ st1 : St, get_schema_copyfields s c st1
        = (.ok (JVal.arr rules), afterReq st1 (getCopyFieldsReq c)) := by
      intro st1
      rw [get_schema_copyfields_eq, hresp]
    simp only [does_copy_field_exist, hrw, pyIter, hb]

/-- Witness for C8: against the `{"fields": [{"name": "title"}]}` snapshot
the field check runs as characterized; against empty field-type and
copy-field snapshots the other two checks do as well. -/
theorem exists_checks_full_fetch_linear_search_witness :
    does_field_exist exS1 "docs" (JVal.str "title") st0
      = (.ok (pyMem (JVal.str "title") [JVal.str "title"]),
         afterReq st0 (getFieldsReq "docs"))
    ∧ does_field_type_exist exS2 "docs" (JVal.str "title") st0
      = (.ok (pyMem (JVal.str "title") []), afterReq st0 (getFieldTypesReq "docs"))
    ∧ ∃ b, does_copy_field_exist exS2 "docs" (JVal.str "a") (JVal.str "b") st0
        = (.ok b, afterReq st0 (getCopyFieldsReq "docs"))
      ∧ (b = true ↔ ∃ f ∈ ([] : List JVal), ∃ sv dv, getItem f "source" = .ok sv
          ∧ getItem f "dest" = .ok dv ∧ pyEq sv (JVal.str "a") = true
          ∧ pyEq dv (JVal.str "b") = true) :=
  ⟨((exists_checks_full_fetch_linear_search exS1 "docs" (JVal.str "title")
      (JVal.str "a") (JVal.str "b") st0).1 exFieldsList [JVal.str "title"] rfl rfl).1,
   ((exists_checks_full_fetch_linear_search exS2 "docs" (JVal.str "title")
      (JVal.str "a") (JVal.str "b") st0).2.1 [] [] rfl rfl).1,
   (exists_checks_full_fetch_linear_search exS2 "docs" (JVal.str "title")
      (JVal.str "a") (JVal.str "b") st0).2.2 [] rfl (by simp)⟩

/-- Claim C9: every spec-taking mutation leaves every pre-existing dict of
the heap — in particular the caller's spec at `specRef` — unchanged: the
request bodies are built from the fresh shallow copy `dict(spec)` and a
fresh single-key literal, and no method writes into an existing dict. -/
theorem spec_dicts_unchanged_by_mutations (s : Schema) (c : String) (h : Heap)
    (specRef r : Nat) (st : St) (hr : r < h.cells.length) :
    readRef (create_field_ref s c h specRef st).2 r = readRef h r
    ∧ readRef (replace_field_ref s c h specRef st).2 r = readRef h r
    ∧ readRef (create_field_type_ref s c h specRef st).2 r = readRef h r
    ∧ readRef (replace_field_type_ref s c h specRef st).2 r = readRef h r
    ∧ readRef (create_copy_field_ref s c h specRef st).2 r = readRef h r
    ∧ readRef (delete_copy_field_ref s c h specRef st).2 r = readRef h r := by
  refine ⟨?_, ?_, ?_, ?_, ?_, ?_⟩
  · cases hres : (create_field s c (readRef h specRef) st).1 with
    | error e => simp [create_field_ref, hres]
    | ok v =>
      simp only [create_field_ref, hres]
      exact readRef_allocBody h "add-field" (readRef h specRef) r hr
  · cases hres : (replace_field s c (readRef h specRef) st).1 with
    | error e => simp [replace_field_ref, hres]
    | ok v =>
      simp only [replace_field_ref, hres]
      exact readRef_allocBody h "replace-field" (readRef h specRef) r hr
  · cases hres : (create_field_type s c (readRef h specRef) st).1 with
    | error e => simp [create_field_type_ref, hres]
    | ok v =>
      simp only [create_field_type_ref, hres]
      exact readRef_allocBody h "add-field-type" (readRef h specRef) r hr
  · cases hres : (replace_field_type s c (readRef h specRef) st).1 with
    | error e => simp [replace_field_type_ref, hres]
    | ok v =>
      simp only [replace_field_type_ref, hres]
      exact readRef_allocBody h "replace-field-type" (readRef h specRef) r hr
  · simp only [create_copy_field_ref]
    exact readRef_allocBody h "add-copy-field" (readRef h specRef) r hr
  · cases hres : (delete_copy_field s c (readRef h specRef) st).1 with
    | error e => simp [delete_copy_field_ref, hres]
    | ok v =>
      simp only [delete_copy_field_ref, hres]
      exact readRef_allocBody h "delete-copy-field" (readRef h specRef) r hr

/-- Witness for C9: a concrete one-dict heap holding the `sell-by` spec is
untouched at its reference by a `create_field` run over it. -/
theorem spec_dicts_unchanged_by_mutations_witness :
    readRef (create_field_ref exS2 "docs" ⟨[exSellBy]⟩ 0 st0).2 0
      = readRef ⟨[exSellBy]⟩ 0 :=
  (spec_dicts_unchanged_by_mutations exS2 "docs" ⟨[exSellBy]⟩ 0 0 st0
    (by simp [exSellBy])).1

/-- Claim C10: the POST request `delete_copy_field` sends, the trace it
leaves, and the value it returns are independent of the copy-field snapshot
fetched beforehand: two runs over transports agreeing on the delete POST's
response but holding arbitrary (well-formed) snapshots return the same
result and issue the same requests — the snapshot influences only logging. -/
theorem delete_copy_field_snapshot_noninterference (t1 t2 : Transport) (dv : Bool)
    (c : String) (d : List (String × JVal)) (st : St) (rules1 rules2 : List JVal)
    (hc1 : getItem (respOf ⟨t1, dv⟩ (getCopyFieldsReq c)) "copyFields"
      = .ok (JVal.arr rules1))
    (hc2 : getItem (respOf ⟨t2, dv⟩ (getCopyFieldsReq c)) "copyFields"
      = .ok (JVal.arr rules2))
    (hpost : t1.respond (patchReq c "delete-copy-field" d)
      = t2.respond (patchReq c "delete-copy-field" d)) :
    (delete_copy_field ⟨t1, dv⟩ c d st).1 = (delete_copy_field ⟨t2, dv⟩ c d st).1
    ∧ (delete_copy_field ⟨t1, dv⟩ c d st).2.trace
      = (delete_copy_field ⟨t2, dv⟩ c d st).2.trace := by
  have h1 := @delete_copy_field_run ⟨t1, dv⟩ c st d rules1 hc1
  have h2 := @delete_copy_field_run ⟨t2, dv⟩ c st d rules2 hc2
  rw [h1, h2]
  exact ⟨by simp [respOf, hpost], rfl⟩

/-- Witness for C10: an empty snapshot and a one-rule snapshot (the rule
being the one deleted) produce the same result and the same requests. -/
theorem delete_copy_field_snapshot_noninterference_witness :
    (delete_copy_field ⟨exT2, false⟩ "docs" exCopy st0).1
      = (delete_copy_field ⟨exT4, false⟩ "docs" exCopy st0).1
    ∧ (delete_copy_field ⟨exT2, false⟩ "docs" exCopy st0).2.trace
      = (delete_copy_field ⟨exT4, false⟩ "docs" exCopy st0).2.trace :=
  delete_copy_field_snapshot_noninterference exT2 exT4 false "docs" exCopy st0
    [] [JVal.obj exCopy] rfl rfl rfl

end SolrClient2
